import Mathlib

/-!
# Verification of the MyTheresa product-catalog core

Shallow embedding of the catalog request pipeline:
filter validation (`validateProductFilters`), product-code validation
(`validateProductCode`), response assembly (`prepareResponse`), the
repository lookup/creation behavior (`GetByCode`, `Create`), and the two
handlers (`HandleGetSpecific`, `HandlePost`).

Conventions of the embedding:
* `shopspring/decimal.Decimal` is modelled by `GoDecimal`, a coefficient
  `value : Int` together with an exponent `exp : Int` (numeric value
  `value * 10 ^ exp`).  Go compares two `Decimal` structs with `==` by
  comparing the coefficient pointer and the exponent; pointer identity
  (aliasing) is not representable here, so `==` is modelled as structural
  equality on `(value, exp)`.  The library constant `decimal.Zero` is
  `New(0, 1)`, i.e. coefficient `0` with exponent `1`.
* Go slices that the code distinguishes by nil-ness are modelled as
  `Option (List _)` (`none` = nil slice, `some l` = non-nil slice of
  elements `l`).
* The external store is modelled as the list of rows it holds; handler
  functions are instrumented with the list of repository invocations they
  perform, so that "the store is never accessed" is the statement that
  this list is empty.
-/

namespace MyTheresa

/-- Model of `shopspring/decimal.Decimal`: an arbitrary-precision coefficient
and a base-10 exponent.  The numeric value is `value * 10 ^ exp`. -/
structure GoDecimal where
  value : Int
  exp : Int
deriving DecidableEq, Repr

/-- The library constant `decimal.Zero`, defined in shopspring/decimal as
`New(0, 1)`: coefficient `0`, exponent `1`. -/
def decimalZero : GoDecimal := { value := 0, exp := 1 }

/-- The Go zero value of `decimal.Decimal`: nil coefficient (read as `0`)
and exponent `0`. -/
def zeroValueDecimal : GoDecimal := { value := 0, exp := 0 }

/-- Exact numeric value of a decimal, as a rational: `value * 10 ^ exp`
(written with `Rat.divInt` so that it evaluates by kernel reduction). -/
def GoDecimal.toRat (d : GoDecimal) : ℚ :=
  if 0 ≤ d.exp then Rat.divInt (d.value * 10 ^ d.exp.toNat) 1
  else Rat.divInt d.value (10 ^ (-d.exp).toNat)

/-- Model of `decimal.Decimal.GreaterThan`: numeric comparison (`Cmp == 1`). -/
def GoDecimal.greaterThan (a b : GoDecimal) : Bool :=
  decide (b.toRat < a.toRat)

/-- Model of `decimal.Decimal.InexactFloat64`, which renders the decimal as
the nearest representable `float64`.  Floating-point rounding is outside
this embedding; the conversion is modelled by the exact rational value
(no property proved here depends on the rounding step). -/
def GoDecimal.inexactFloat64 (d : GoDecimal) : ℚ := d.toRat

/-! ## Models of the Go standard-library parsing functions used by the core -/

/-- Digits-only parse of a character list: succeeds iff the list is
non-empty and every character is an ASCII digit. -/
def parseUnsignedDigits (l : List Char) : Option Nat :=
  if l = [] then none
  else if l.all Char.isDigit then
    some (l.foldl (fun acc c => 10 * acc + (c.toNat - 48)) 0)
  else none

/-- Optional-sign integer parse (`^[+-]?[0-9]+$`), the grammar shared by
`strconv.ParseInt` (base 10) and `big.Int.SetString` (base 10). -/
def parseSignedDigits (l : List Char) : Option Int :=
  match l with
  | '+' :: rest => (parseUnsignedDigits rest).map (fun n => (n : Int))
  | '-' :: rest => (parseUnsignedDigits rest).map (fun n => -(n : Int))
  | _ => (parseUnsignedDigits l).map (fun n => (n : Int))

def int64Min : Int := -(2 ^ 63)
def int64Max : Int := 2 ^ 63 - 1
def int32Min : Int := -(2 ^ 31)
def int32Max : Int := 2 ^ 31 - 1

/-- Model of Go `strconv.Atoi` (= `strconv.ParseInt(s, 10, 0)` on a 64-bit
platform): optional sign, one or more ASCII digits, nothing else, and the
result must fit in a signed 64-bit integer. -/
def atoi (s : String) : Option Int :=
  match parseSignedDigits s.data with
  | none => none
  | some v => if int64Min ≤ v ∧ v ≤ int64Max then some v else none

/-- Split a character list at the first character satisfying `p`:
`some (before, after)` when such a character exists, `none` otherwise. -/
def splitOnFirst (p : Char → Bool) : List Char → Option (List Char × List Char)
  | [] => none
  | c :: rest =>
    if p c then some ([], rest)
    else
      match splitOnFirst p rest with
      | some (a, b) => some (c :: a, b)
      | none => none

/-- Model of `shopspring/decimal.NewFromString`:
an optional scientific-notation suffix introduced by the first `e`/`E`
(whose exponent must be a signed digit string fitting in an `int32`),
a mantissa with at most one decimal point whose digits (with the optional
leading sign) form a non-empty integer literal, and a final exponent
(scientific exponent minus the number of fractional digits) that must
again fit in an `int32`. -/
def newFromString (s : String) : Option GoDecimal :=
  let chars := s.data
  let mantExp : List Char × Option (List Char) :=
    match splitOnFirst (fun c => c = 'e' || c = 'E') chars with
    | some (a, b) => (a, some b)
    | none => (chars, none)
  let expParsed : Option Int :=
    match mantExp.2 with
    | none => some 0
    | some epart =>
      match parseSignedDigits epart with
      | some e => if int32Min ≤ e ∧ e ≤ int32Max then some e else none
      | none => none
  match expParsed with
  | none => none
  | some exp0 =>
    let dotSplit : Option (List Char × Int) :=
      match splitOnFirst (fun c => c = '.') mantExp.1 with
      | none => some (mantExp.1, 0)
      | some (a, b) =>
        if b.any (fun c => c = '.') then none
        else some (a ++ b, -(b.length : Int))
    match dotSplit with
    | none => none
    | some (intDigits, exp1) =>
      match parseSignedDigits intDigits with
      | none => none
      | some v =>
        let e := exp0 + exp1
        if int32Min ≤ e ∧ e ≤ int32Max then some { value := v, exp := e }
        else none

/-! ## Domain entities (package `models`) -/

namespace models

/-- Entity `models.Category` (struct embedded next to the category tests):
`ID uint`, `Code string` (unique), `Name string`.  The `Products`
back-reference collection is not used by any embedded operation and is
omitted (it would force a mutual definition with `Product`). -/
structure Category where
  ID : Nat
  Code : String
  Name : String
deriving DecidableEq, Repr

/-- Modelled from the spec: the struct `models.Variant` is not among the
sources; its fields are those used by the handlers and their tests —
identity, `Name`, `SKU`, `Price` (exact decimal, zero acting as the
"use parent product price" sentinel), and the `ProductID` back-reference. -/
structure Variant where
  ID : Nat
  Name : String
  SKU : String
  Price : GoDecimal
  ProductID : Nat
deriving DecidableEq, Repr

/-- Modelled from the spec: the struct `models.Product` is not among the
sources; its fields are those used by the handlers and their tests —
identity, `Code` (unique), `Price` (exact decimal), the owned `Category`
reference and the owned ordered `Variants` collection. -/
structure Product where
  ID : Nat
  Code : String
  Price : GoDecimal
  Category : Category
  Variants : List Variant
deriving DecidableEq, Repr

end models

/-- The Go zero value of `models.Category`. -/
def zeroCategory : models.Category := { ID := 0, Code := "", Name := "" }

/-- The Go zero value of `models.Product`: every field at its zero value
(`decimal.Decimal` zero value included). -/
def zeroProduct : models.Product :=
  { ID := 0, Code := "", Price := zeroValueDecimal, Category := zeroCategory, Variants := [] }

/-! ## Catalog transport DTOs (package `catalog`, `models.go`) -/

namespace catalog

/-- DTO `catalog.Product` (transport shape): `code`, `price` (a `float64` in Go, modelled by
the exact rational produced by `InexactFloat64`), `category` (the category
name). -/
structure Product where
  Code : String
  Price : ℚ
  Category : String
deriving DecidableEq, Repr

/-- DTO `catalog.Response`.  `Variants` is a Go slice that the code
distinguishes by nil-ness (`json:"variants,omitempty"`): `none` models the
nil slice (field absent), `some l` models a non-nil slice (field present),
including `some []` for the non-nil empty slice. -/
structure Response where
  Products : List Product
  ProductsAvailable : Nat
  Variants : Option (List models.Variant)
deriving DecidableEq, Repr

/-! ## `catalog` handler logic (`handler.go`) -/

/-- Model of `catalog.prepareResponse`: maps each product to its DTO,
accumulates `ProductsAvailable` over the variant counts, and — only when
`includeVariants` is set and the input is non-empty — publishes the first
product's variants with the zero-sentinel price substitution
(`variant.Price == decimal.Zero`, Go struct equality, modelled as
structural equality on `GoDecimal`). -/
def prepareResponse (dbProducts : List models.Product) (includeVariants : Bool) : Response :=
  let respProducts := dbProducts.map (fun p =>
    { Code := p.Code, Price := p.Price.inexactFloat64, Category := p.Category.Name })
  let uniqueProductCount := dbProducts.foldl
    (fun acc p => if 0 < p.Variants.length then acc + p.Variants.length else acc) 0
  let resp : Response :=
    { Products := respProducts, ProductsAvailable := uniqueProductCount, Variants := none }
  match includeVariants, dbProducts with
  | true, p0 :: _ =>
    { resp with
      Variants := some (p0.Variants.map (fun variant =>
        if variant.Price = decimalZero then { variant with Price := p0.Price } else variant)) }
  | _, _ => resp

/-- Model of `catalog.validateProductFilters`'s defaulted filter struct
(`products.SearchFilters`). -/
structure SearchFilters where
  Offset : Int
  Limit : Int
  Category : String
  PriceLessThan : Option GoDecimal
deriving DecidableEq, Repr

/-- Model of `catalog.validateProductFilters`: starts from the defaults
`Offset 0, Limit 10, Category "", PriceLessThan unset` and overrides each
field only when its raw string is non-empty, parses, and passes the
corresponding bound check. -/
def validateProductFilters (offset limit priceLimit category : String) : SearchFilters :=
  let filters : SearchFilters :=
    { Offset := 0, Limit := 10, Category := "", PriceLessThan := none }
  let filters :=
    if offset ≠ "" then
      match atoi offset with
      | some o => if 0 ≤ o then { filters with Offset := o } else filters
      | none => filters
    else filters
  let filters :=
    if limit ≠ "" then
      match atoi limit with
      | some l => if 0 < l ∧ l ≤ 100 then { filters with Limit := l } else filters
      | none => filters
    else filters
  let filters :=
    if priceLimit ≠ "" then
      match newFromString priceLimit with
      | some p => if p.greaterThan decimalZero then { filters with PriceLessThan := some p } else filters
      | none => filters
    else filters
  if category ≠ "" then { filters with Category := category } else filters

/-- Direct compilation of the anchored RE2 pattern used by
`catalog.validateProductCode`: exactly seven characters, the literal
`PROD` followed by three ASCII digits (`\d` in RE2 is `[0-9]`; the
anchors and the absence of a multiline flag make this a full-string
match over the code's characters). -/
def prodPatternMatch (l : List Char) : Bool :=
  match l with
  | [c1, c2, c3, c4, c5, c6, c7] =>
    c1 = 'P' && c2 = 'R' && c3 = 'O' && c4 = 'D' && c5.isDigit && c6.isDigit && c7.isDigit
  | _ => false

/-- Model of `catalog.validateProductCode`: rejects the empty string, then
matches the code against the pattern (`regexp.MatchString` on the constant
valid pattern never returns a compilation error, so the error branch of
the source is unreachable and returns `false` like a non-match). -/
def validateProductCode (code : String) : Bool :=
  if code = "" then false
  else prodPatternMatch code.data

end catalog

/-! ## Product repository (`app/repos/products/gorm.go`) -/

namespace products

/-- Outcome of a gorm query: a row, `gorm.ErrRecordNotFound`, or another
store-level failure. -/
inductive DBError where
  | recordNotFound
  | other (msg : String)
deriving DecidableEq, Repr

/-- Model of the gorm call `Where("code = ?", code).First(&product)` over a
store held as its list of rows: the first row whose `Code` matches, or
`ErrRecordNotFound` when none does. -/
def dbFirstProductByCode (store : List models.Product) (code : String) :
    Except DBError models.Product :=
  match store.find? (fun p => p.Code = code) with
  | some p => Except.ok p
  | none => Except.error DBError.recordNotFound

/-- Model of `products.GormRepo.GetByCode`: delegates to the store query
and converts `ErrRecordNotFound` into a zero-valued product with a nil
error; every other store failure is propagated. -/
def GetByCode (store : List models.Product) (code : String) :
    Except String models.Product :=
  match dbFirstProductByCode store code with
  | Except.ok p => Except.ok p
  | Except.error DBError.recordNotFound => Except.ok zeroProduct
  | Except.error (DBError.other m) => Except.error m

end products

/-! ## `catalog` handler `HandleGetSpecific` -/

namespace catalog

/-- The transport outcome of `HandleGetSpecific`: a 200 with the assembled
response, a 400 with a message, or a 500 with the store error text. -/
inductive GetSpecificResult where
  | success (resp : Response)
  | badRequest (msg : String)
  | serverError (msg : String)
deriving DecidableEq, Repr

/-- Model of `catalog.Handler.HandleGetSpecific`, instrumented with the
list of codes passed to `Repository.GetByCode` (second component): the
format check runs first and short-circuits with a 400; otherwise the
repository is consulted exactly once and the response is assembled from
the single returned product with `includeVariants = true`. -/
def HandleGetSpecific (repoGetByCode : String → Except String models.Product)
    (code : String) : GetSpecificResult × List String :=
  if validateProductCode code = false then
    (GetSpecificResult.badRequest
      ("Invalid product code format. Expected format: PROD followed by 3 digits (e.g., PROD001)"),
      [])
  else
    match repoGetByCode code with
    | Except.error e => (GetSpecificResult.serverError e, [code])
    | Except.ok p => (GetSpecificResult.success (prepareResponse [p] true), [code])

end catalog

/-! ## Category repository and handler (`app/repos/products/gorm.go`
category part, `app/category/handler.go`) -/

namespace category

/-- Outcome of the gorm `Create` call: success, `gorm.ErrDuplicatedKey`
(uniqueness violation), or another store-level failure. -/
inductive CreateDBError where
  | duplicatedKey
  | other (msg : String)
deriving DecidableEq, Repr

/-- Model of the gorm call `Create(newCategory)` over a store held as its
list of rows: a uniqueness violation on `Code` surfaces as
`ErrDuplicatedKey`; otherwise the row is appended. -/
def dbCreateCategory (store : List models.Category) (c : models.Category) :
    Except CreateDBError (List models.Category) :=
  if store.any (fun c0 => c0.Code = c.Code) then Except.error CreateDBError.duplicatedKey
  else Except.ok (store ++ [c])

/-- Model of the category `GormRepo.Create`: a `gorm.ErrDuplicatedKey`
failure is replaced by the error message `category code already exists`;
any other error (and success) is returned unchanged. -/
def Create (store : List models.Category) (c : models.Category) :
    Except String (List models.Category) :=
  match dbCreateCategory store c with
  | Except.ok s => Except.ok s
  | Except.error CreateDBError.duplicatedKey => Except.error ("category code already exists")
  | Except.error (CreateDBError.other m) => Except.error m

/-- The decoded body of `POST /categories` (`category.CreateRequest`). -/
structure CreateRequest where
  Code : String
  Name : String
deriving DecidableEq, Repr

/-- The transport outcome of `HandlePost`: 200 with a message, 400, 409
(conflict), or 500. -/
inductive PostResult where
  | success (message : String)
  | badRequest (msg : String)
  | conflict (msg : String)
  | serverError (msg : String)
deriving DecidableEq, Repr

/-- Model of `category.Handler.HandlePost`, instrumented with the list of
categories passed to `Repository.Create` (second component).  `body` is
the decoded JSON request (`none` models a body that fails to decode).
The presence check on `Code`/`Name` runs before any store access; a store
error whose message is exactly `category code already exists` becomes a
409 conflict, any other store error a 500. -/
def HandlePost (repoCreate : models.Category → Option String)
    (body : Option CreateRequest) : PostResult × List models.Category :=
  match body with
  | none => (PostResult.badRequest ("Invalid JSON"), [])
  | some req =>
    if req.Code = "" || req.Name = "" then
      (PostResult.badRequest ("Code and name are required"), [])
    else
      let newCategory : models.Category := { ID := 0, Code := req.Code, Name := req.Name }
      match repoCreate newCategory with
      | some e =>
        if e = "category code already exists" then (PostResult.conflict e, [newCategory])
        else (PostResult.serverError e, [newCategory])
      | none => (PostResult.success ("Category created successfully"), [newCategory])

/-- The handler's `Repository.Create` capability as realised by the
embedded gorm repository over a concrete store. -/
def createOnStore (store : List models.Category) : models.Category → Option String :=
  fun c =>
    match Create store c with
    | Except.ok _ => none
    | Except.error e => some e

end category

/-! ## Spec-side definitions (written from the specification's wording, for
comparison with the embedded code) -/

/-- Spec wording for the `Offset` rule: "parse as integer; if parse fails
or result < 0, use 0". -/
def specOffset (s : String) : Int :=
  match atoi s with
  | some o => if 0 ≤ o then o else 0
  | none => 0

/-- Spec wording for the `Limit` rule: "parse as integer; if parse fails,
or result ≤ 0, or result > 100, use 10 (default); otherwise use the parsed
value unchanged". -/
def specLimit (s : String) : Int :=
  match atoi s with
  | some l => if 1 ≤ l ∧ l ≤ 100 then l else 10
  | none => 10

/-- Spec wording for the `PriceLessThan` rule: "parse as exact decimal; if
parse fails or result ≤ 0, leave unset; otherwise set". -/
def specPriceLessThan (s : String) : Option GoDecimal :=
  match newFromString s with
  | some p => if 0 < p.toRat then some p else none
  | none => none

/-- Spec wording for the per-product DTO: "emit a DTO with `Code`, `Price`
(rendered as the nearest representable floating value of the exact
decimal), and `Category.Name`". -/
def specProductDTO (p : models.Product) : catalog.Product :=
  { Code := p.Code, Price := p.Price.inexactFloat64, Category := p.Category.Name }

/-! ## Concrete fixtures (taken from the repository's own test vectors) -/

def clothingCategory : models.Category := { ID := 1, Code := "clothing", Name := "Clothing" }

def shoesCategory : models.Category := { ID := 2, Code := "shoes", Name := "Shoes" }

/-- A variant whose stored price is numerically exactly zero, in the
representation produced by `decimal.NewFromString("0")` or
`decimal.NewFromInt(0)`: coefficient `0` with exponent `0` (not the
`decimal.Zero` constant, whose exponent is `1`). -/
def variantZeroExpZero : models.Variant :=
  { ID := 1, Name := "Medium", SKU := "PROD001-M", Price := { value := 0, exp := 0 }, ProductID := 1 }

/-- A variant whose stored price is the `decimal.Zero` sentinel itself. -/
def variantSentinelZero : models.Variant :=
  { ID := 1, Name := "Medium", SKU := "PROD001-M", Price := decimalZero, ProductID := 1 }

/-- A variant with its own stored price of 120. -/
def variantPrice120 : models.Variant :=
  { ID := 2, Name := "Large", SKU := "PROD001-L", Price := { value := 120, exp := 0 }, ProductID := 1 }

/-- Product `PROD001` priced 100.50 whose first variant stores a
numerically-zero price with exponent `0`. -/
def productZeroExpZeroVariant : models.Product :=
  { ID := 1, Code := "PROD001", Price := { value := 1005, exp := -1 },
    Category := clothingCategory, Variants := [variantZeroExpZero, variantPrice120] }

/-- Product `PROD001` priced 100.50 whose first variant stores the
`decimal.Zero` sentinel (the repository's own test vector). -/
def productSentinelVariant : models.Product :=
  { ID := 1, Code := "PROD001", Price := { value := 1005, exp := -1 },
    Category := clothingCategory, Variants := [variantSentinelZero, variantPrice120] }

/-- Product `PROD002` priced 200.75 with no variants (the repository's own
test vector). -/
def productNoVariants : models.Product :=
  { ID := 2, Code := "PROD002", Price := { value := 20075, exp := -2 },
    Category := shoesCategory, Variants := [] }

/-! ## Helper lemmas -/

theorem atoi_empty : atoi "" = none := by decide

theorem newFromString_empty : newFromString "" = none := by decide

theorem decimalZero_toRat : decimalZero.toRat = 0 := by decide

/-- `GreaterThan(decimal.Zero)` is exactly numeric strict positivity. -/
theorem greaterThan_zero_iff (d : GoDecimal) :
    d.greaterThan decimalZero = true ↔ 0 < d.toRat := by
  unfold GoDecimal.greaterThan
  rw [decimalZero_toRat]
  simp

/-- The anchored pattern accepts exactly `PROD` followed by three ASCII
digit characters. -/
theorem prodPatternMatch_iff (l : List Char) :
    catalog.prodPatternMatch l = true ↔
      ∃ a b c : Char, a.isDigit ∧ b.isDigit ∧ c.isDigit ∧
        l = ['P', 'R', 'O', 'D', a, b, c] := by
  constructor
  · intro h
    rcases l with _ | ⟨c1, _ | ⟨c2, _ | ⟨c3, _ | ⟨c4, _ | ⟨c5, _ | ⟨c6, _ | ⟨c7, _ | ⟨c8, t⟩⟩⟩⟩⟩⟩⟩⟩ <;>
        simp only [catalog.prodPatternMatch, Bool.and_eq_true, decide_eq_true_eq] at h <;>
      try exact absurd h (by decide)
    obtain ⟨⟨⟨⟨⟨⟨h1, h2⟩, h3⟩, h4⟩, h5⟩, h6⟩, h7⟩ := h
    exact ⟨c5, c6, c7, h5, h6, h7, by rw [h1, h2, h3, h4]⟩
  · rintro ⟨a, b, c, ha, hb, hc, rfl⟩
    simp [catalog.prodPatternMatch, ha, hb, hc]

/-- The assembled `Products` field is the input list mapped through the
per-product DTO conversion. -/
theorem prepareResponse_Products (ps : List models.Product) (iv : Bool) :
    (catalog.prepareResponse ps iv).Products = ps.map specProductDTO := by
  cases iv <;> cases ps <;> simp [catalog.prepareResponse, specProductDTO]

/-- The guarded count accumulation of `prepareResponse` is the sum of the
variant-list lengths. -/
theorem foldl_count_variants (ps : List models.Product) (n : Nat) :
    ps.foldl (fun acc p => if 0 < p.Variants.length then acc + p.Variants.length else acc) n =
      n + (ps.map (fun p => p.Variants.length)).sum := by
  induction ps generalizing n with
  | nil => simp
  | cons p t ih =>
    simp only [List.foldl_cons, List.map_cons, List.sum_cons, ih]
    by_cases h : 0 < p.Variants.length
    · rw [if_pos h]
      omega
    · rw [if_neg h]
      omega

/-! ## Claim theorems -/

/-- C1 counterexample: the claim says a variant whose stored price is
exactly zero on a product priced 100.50 is rendered with price 100.50.
`productZeroExpZeroVariant` is priced 100.50 and its first variant stores
the price `0` in the representation produced by parsing `"0"` (coefficient
`0`, exponent `0`); the assembler emits that variant with its own zero
price, unchanged — not with 100.50 — because the code compares the stored
price against `decimal.Zero` (coefficient `0`, exponent `1`) with `==`. -/
theorem c1_zero_price_not_inherited_counterexample :
    variantZeroExpZero.Price.toRat = 0 ∧
    productZeroExpZeroVariant.Price.toRat = Rat.divInt 201 2 ∧
    (catalog.prepareResponse [productZeroExpZeroVariant] true).Variants =
      some [variantZeroExpZero, variantPrice120] ∧
    variantZeroExpZero.Price ≠ productZeroExpZeroVariant.Price ∧
    variantZeroExpZero.Price.toRat ≠ productZeroExpZeroVariant.Price.toRat := by
  refine ⟨by decide, by decide, ?_, by decide, by decide⟩
  decide

/-- C1 amended: when the assembler emits variants, the emitted variant at
each index is the stored variant, with the product's price substituted
exactly when the stored price is structurally equal to the `decimal.Zero`
sentinel (coefficient 0, exponent 1), and the stored price kept otherwise;
concretely, a variant storing the sentinel on a product priced 100.50 is
rendered with 100.50, a variant storing 120 is rendered with 120, and a
variant storing a numerically-zero price with exponent 0 keeps its own
zero price. -/
theorem c1_variant_price_resolution_amended :
    (∀ (p : models.Product) (rest : List models.Product) (i : Nat),
      ((catalog.prepareResponse (p :: rest) true).Variants.getD [])[i]? =
        (p.Variants[i]?).map (fun v =>
          if v.Price = decimalZero then { v with Price := p.Price } else v)) ∧
    ((catalog.prepareResponse [productSentinelVariant] true).Variants.getD []).map
        (fun v => v.Price) =
      [{ value := 1005, exp := -1 }, { value := 120, exp := 0 }] ∧
    ((catalog.prepareResponse [productZeroExpZeroVariant] true).Variants.getD []).map
        (fun v => v.Price) =
      [{ value := 0, exp := 0 }, { value := 120, exp := 0 }] := by
  refine ⟨?_, by decide, by decide⟩
  intro p rest i
  simp [catalog.prepareResponse, List.getElem?_map]

/-- C1 amended, instantiated: the first emitted variant of the sentinel
fixture, computed through the amended theorem. -/
theorem c1_variant_price_resolution_amended_witness :
    ((catalog.prepareResponse [productSentinelVariant] true).Variants.getD [])[0]? =
      (productSentinelVariant.Variants[0]?).map (fun v =>
        if v.Price = decimalZero then { v with Price := productSentinelVariant.Price } else v) :=
  c1_variant_price_resolution_amended.1 productSentinelVariant [] 0

/-- C2: with `includeVariants = true` and a non-empty input the variant
field is taken from the first product only (later products never change
it, and its length is the first product's variant count); with
`includeVariants = false` or an empty input the field is absent; and a
single product with zero variants yields the present-but-empty
collection. -/
theorem c2_variant_field_shape :
    (∀ (p0 : models.Product) (rest : List models.Product),
      (catalog.prepareResponse (p0 :: rest) true).Variants =
        (catalog.prepareResponse [p0] true).Variants) ∧
    (∀ (p0 : models.Product) (rest : List models.Product), ∃ l : List models.Variant,
      (catalog.prepareResponse (p0 :: rest) true).Variants = some l ∧
      l.length = p0.Variants.length) ∧
    (∀ ps : List models.Product, (catalog.prepareResponse ps false).Variants = none) ∧
    (∀ iv : Bool, (catalog.prepareResponse [] iv).Variants = none) ∧
    (∀ (p0 : models.Product) (rest : List models.Product), p0.Variants = [] →
      (catalog.prepareResponse (p0 :: rest) true).Variants = some []) := by
  refine ⟨?_, ?_, ?_, ?_, ?_⟩
  · intro p0 rest
    simp [catalog.prepareResponse]
  · intro p0 rest
    refine ⟨p0.Variants.map (fun variant =>
      if variant.Price = decimalZero then { variant with Price := p0.Price } else variant),
      ?_, ?_⟩
    · simp [catalog.prepareResponse]
    · simp
  · intro ps
    cases ps <;> simp [catalog.prepareResponse]
  · intro iv
    cases iv <;> simp [catalog.prepareResponse]
  · intro p0 rest h
    simp [catalog.prepareResponse, h]

/-- C2, instantiated: a single product with zero variants produces the
present-but-empty collection, and `includeVariants = false` hides a
two-product result's variant data. -/
theorem c2_variant_field_shape_witness :
    (catalog.prepareResponse [productNoVariants] true).Variants = some [] ∧
    (catalog.prepareResponse [productSentinelVariant, productNoVariants] false).Variants = none :=
  ⟨c2_variant_field_shape.2.2.2.2 productNoVariants [] rfl,
   c2_variant_field_shape.2.2.1 [productSentinelVariant, productNoVariants]⟩

/-- C5: `validateProductCode` accepts a string iff it is the literal
`PROD` followed by exactly three ASCII digits (case-sensitive, no
surrounding whitespace, no other characters), and the five stated
examples evaluate as claimed. -/
theorem c5_product_code_format :
    (∀ code : String, catalog.validateProductCode code = true ↔
      ∃ a b c : Char, a.isDigit ∧ b.isDigit ∧ c.isDigit ∧
        code.data = ['P', 'R', 'O', 'D', a, b, c]) ∧
    catalog.validateProductCode "PROD001" = true ∧
    catalog.validateProductCode "PROD1" = false ∧
    catalog.validateProductCode "prod001" = false ∧
    catalog.validateProductCode "" = false ∧
    catalog.validateProductCode "PROD12A" = false := by
  refine ⟨?_, by decide, by decide, by decide, by decide, by decide⟩
  intro code
  unfold catalog.validateProductCode
  by_cases hc : code = ""
  · subst hc
    constructor
    · intro h
      simp at h
    · rintro ⟨a, b, c, -, -, -, hd⟩
      have hnil : ("" : String).data = [] := rfl
      rw [hnil] at hd
      simp at hd
  · rw [if_neg hc]
    exact prodPatternMatch_iff code.data

/-- C5, instantiated: `PROD123` is accepted, via the characterization. -/
theorem c5_product_code_format_witness :
    catalog.validateProductCode "PROD123" = true :=
  (c5_product_code_format.1 "PROD123").mpr
    ⟨'1', '2', '3', by decide, by decide, by decide, by decide⟩

/-- C8: when the code fails the format check, the detail handler answers
with the 400 client error and performs no repository call at all (its
repository-invocation log is empty), for every repository behavior. -/
theorem c8_invalid_code_never_touches_store
    (repo : String → Except String models.Product) (code : String)
    (h : catalog.validateProductCode code = false) :
    catalog.HandleGetSpecific repo code =
      (catalog.GetSpecificResult.badRequest
        ("Invalid product code format. Expected format: PROD followed by 3 digits (e.g., PROD001)"),
        []) := by
  unfold catalog.HandleGetSpecific
  rw [h]
  simp

/-- C8, instantiated at the rejected code `PROD1` and a concrete
repository. -/
theorem c8_invalid_code_never_touches_store_witness :
    catalog.HandleGetSpecific (fun _ => Except.ok zeroProduct) "PROD1" =
      (catalog.GetSpecificResult.badRequest
        ("Invalid product code format. Expected format: PROD followed by 3 digits (e.g., PROD001)"),
        []) :=
  c8_invalid_code_never_touches_store (fun _ => Except.ok zeroProduct) "PROD1" (by decide)

/-- C3: for a code that passes the format check but matches nothing in the
store, `GetByCode` answers with the zero-valued product and no error, and
the detail operation succeeds (one repository call), assembling a 200
response that contains exactly one empty product DTO. -/
theorem c3_empty_lookup_not_error (store : List models.Product) (code : String)
    (hvalid : catalog.validateProductCode code = true)
    (hmiss : ∀ p ∈ store, p.Code ≠ code) :
    products.GetByCode store code = Except.ok zeroProduct ∧
    catalog.HandleGetSpecific (products.GetByCode store) code =
      (catalog.GetSpecificResult.success
        { Products := [{ Code := "", Price := 0, Category := "" }],
          ProductsAvailable := 0, Variants := some [] },
        [code]) := by
  have hfind : store.find? (fun p => p.Code = code) = none := by
    rw [List.find?_eq_none]
    intro p hp
    simp [hmiss p hp]
  have hget : products.GetByCode store code = Except.ok zeroProduct := by
    unfold products.GetByCode products.dbFirstProductByCode
    rw [hfind]
  refine ⟨hget, ?_⟩
  unfold catalog.HandleGetSpecific
  rw [hvalid]
  simp only [Bool.true_eq_false, if_false]
  rw [hget]
  have hresp : catalog.prepareResponse [zeroProduct] true =
      { Products := [{ Code := "", Price := 0, Category := "" }],
        ProductsAvailable := 0, Variants := some [] } := by decide
  show (catalog.GetSpecificResult.success (catalog.prepareResponse [zeroProduct] true), [code]) = _
  rw [hresp]

/-- C3, instantiated: the valid code `PROD999` against a store that holds
only `PROD001`. -/
theorem c3_empty_lookup_not_error_witness :
    products.GetByCode [productSentinelVariant] "PROD999" = Except.ok zeroProduct ∧
    catalog.HandleGetSpecific (products.GetByCode [productSentinelVariant]) "PROD999" =
      (catalog.GetSpecificResult.success
        { Products := [{ Code := "", Price := 0, Category := "" }],
          ProductsAvailable := 0, Variants := some [] },
        ["PROD999"]) :=
  c3_empty_lookup_not_error [productSentinelVariant] "PROD999" (by decide) (by decide)

set_option maxHeartbeats 2000000 in
/-- C4: filter validation is total and returns exactly the spec's four
field rules — `Offset` is the parsed integer when parsing succeeds and the
value is non-negative, else 0; `Limit` is the parsed integer when parsing
succeeds and the value lies in `[1, 100]`, else 10; `PriceLessThan` is the
exact parsed decimal when parsing succeeds and the value is strictly
positive, else unset; `Category` is the input string verbatim. -/
theorem c4_filter_validation (o l p c : String) :
    catalog.validateProductFilters o l p c =
      { Offset := specOffset o, Limit := specLimit l,
        Category := c, PriceLessThan := specPriceLessThan p } := by
  unfold catalog.validateProductFilters specOffset specLimit specPriceLessThan
  rcases hao : atoi o with _ | ov <;>
    rcases hal : atoi l with _ | lv <;>
      rcases hnp : newFromString p with _ | dv <;>
        by_cases ho : o = "" <;> by_cases hl : l = "" <;> by_cases hp : p = "" <;>
          by_cases hc : c = "" <;>
    simp_all [greaterThan_zero_iff, atoi_empty, newFromString_empty,
      catalog.SearchFilters.mk.injEq] <;>
    split_ifs <;> simp_all <;> omega

/-- C4, instantiated: a negative offset, an out-of-range limit and a
negative price limit all fall back, and the category passes through. -/
theorem c4_filter_validation_witness :
    catalog.validateProductFilters "-5" "150" "-50.00" "shoes" =
      { Offset := 0, Limit := 10, Category := "shoes", PriceLessThan := none } :=
  (c4_filter_validation "-5" "150" "-50.00" "shoes").trans (by decide)

/-- C6: the assembled `ProductsAvailable` is the sum of the variant-list
lengths over all input products, and it is 2 for the two-product fixture
with variant counts 2 and 0. -/
theorem c6_products_available_sum :
    (∀ (ps : List models.Product) (iv : Bool),
      (catalog.prepareResponse ps iv).ProductsAvailable =
        (ps.map (fun p => p.Variants.length)).sum) ∧
    (catalog.prepareResponse [productSentinelVariant, productNoVariants] false).ProductsAvailable
      = 2 := by
  constructor
  · intro ps iv
    cases iv <;> cases ps <;>
      simp [catalog.prepareResponse, foldl_count_variants] <;>
      (intro h; simp [h])
  · decide

/-- C6, instantiated through the sum characterization with variants
included. -/
theorem c6_products_available_sum_witness :
    (catalog.prepareResponse [productSentinelVariant, productNoVariants] true).ProductsAvailable
      = 2 :=
  (c6_products_available_sum.1 [productSentinelVariant, productNoVariants] true).trans (by decide)

/-- C7: category creation rejects an empty code or name with the 400
validation error before any store access (empty invocation log);
otherwise it passes the new category to `Repository.Create` exactly once,
and — composed with the embedded gorm repository — an existing code
yields the 409 conflict while a fresh code succeeds; any other store
failure message surfaces as the 500 infrastructure error; and the
conflict outcome is distinct from the infrastructure outcome. -/
theorem c7_category_create_pipeline :
    (∀ (repo : models.Category → Option String) (req : category.CreateRequest),
      (req.Code = "" ∨ req.Name = "") →
      category.HandlePost repo (some req) =
        (category.PostResult.badRequest ("Code and name are required"), [])) ∧
    (∀ (store : List models.Category) (req : category.CreateRequest),
      req.Code ≠ "" → req.Name ≠ "" →
      (store.any (fun c0 => c0.Code = req.Code) = true →
        category.HandlePost (category.createOnStore store) (some req) =
          (category.PostResult.conflict ("category code already exists"),
            [{ ID := 0, Code := req.Code, Name := req.Name }])) ∧
      (store.any (fun c0 => c0.Code = req.Code) = false →
        category.HandlePost (category.createOnStore store) (some req) =
          (category.PostResult.success ("Category created successfully"),
            [{ ID := 0, Code := req.Code, Name := req.Name }]))) ∧
    (∀ (repo : models.Category → Option String) (req : category.CreateRequest) (msg : String),
      req.Code ≠ "" → req.Name ≠ "" →
      repo { ID := 0, Code := req.Code, Name := req.Name } = some msg →
      msg ≠ "category code already exists" →
      category.HandlePost repo (some req) =
        (category.PostResult.serverError msg,
          [{ ID := 0, Code := req.Code, Name := req.Name }])) ∧
    (∀ m m' : String, category.PostResult.conflict m ≠ category.PostResult.serverError m') := by
  refine ⟨?_, ?_, ?_, ?_⟩
  · intro repo req h
    unfold category.HandlePost
    rcases h with h | h <;> simp [h]
  · intro store req hcode hname
    constructor <;> intro hdup <;>
      unfold category.HandlePost category.createOnStore category.Create
        category.dbCreateCategory <;>
      simp [hcode, hname, hdup]
  · intro repo req msg hcode hname herr hmsg
    unfold category.HandlePost
    simp [hcode, hname, herr, hmsg]
  · intro m m'
    simp

/-- C7, instantiated: missing name is rejected without store access, a
duplicate code conflicts, a fresh code succeeds, and a connection failure
surfaces as the 500 error. -/
theorem c7_category_create_pipeline_witness :
    category.HandlePost (fun _ => none) (some { Code := "electronics", Name := "" }) =
      (category.PostResult.badRequest ("Code and name are required"), []) ∧
    category.HandlePost (category.createOnStore [clothingCategory])
        (some { Code := "clothing", Name := "Clothing" }) =
      (category.PostResult.conflict ("category code already exists"),
        [{ ID := 0, Code := "clothing", Name := "Clothing" }]) ∧
    category.HandlePost (category.createOnStore [clothingCategory])
        (some { Code := "electronics", Name := "Electronics" }) =
      (category.PostResult.success ("Category created successfully"),
        [{ ID := 0, Code := "electronics", Name := "Electronics" }]) ∧
    category.HandlePost (fun _ => some ("database connection failed"))
        (some { Code := "electronics", Name := "Electronics" }) =
      (category.PostResult.serverError ("database connection failed"),
        [{ ID := 0, Code := "electronics", Name := "Electronics" }]) :=
  ⟨c7_category_create_pipeline.1 (fun _ => none) { Code := "electronics", Name := "" }
      (Or.inr rfl),
   (c7_category_create_pipeline.2.1 [clothingCategory]
      { Code := "clothing", Name := "Clothing" } (by decide) (by decide)).1 (by decide),
   (c7_category_create_pipeline.2.1 [clothingCategory]
      { Code := "electronics", Name := "Electronics" } (by decide) (by decide)).2 (by decide),
   c7_category_create_pipeline.2.2.1 (fun _ => some ("database connection failed"))
      { Code := "electronics", Name := "Electronics" } ("database connection failed")
      (by decide) (by decide) rfl (by decide)⟩

/-- C9: given non-empty fields and a store error, the create operation
reports the conflict outcome exactly when the error message is the string
`category code already exists`; any other message — whatever its
underlying cause — is reported as the 500 infrastructure failure. -/
theorem c9_conflict_iff_exact_message
    (repo : models.Category → Option String) (req : category.CreateRequest) (msg : String)
    (hcode : req.Code ≠ "") (hname : req.Name ≠ "")
    (herr : repo { ID := 0, Code := req.Code, Name := req.Name } = some msg) :
    ((category.HandlePost repo (some req)).1 = category.PostResult.conflict msg ↔
      msg = "category code already exists") ∧
    (msg ≠ "category code already exists" →
      (category.HandlePost repo (some req)).1 = category.PostResult.serverError msg) := by
  unfold category.HandlePost
  by_cases hm : msg = "category code already exists" <;>
    simp [hcode, hname, herr, hm]

/-- C9, instantiated: a uniqueness violation surfaced under the raw driver
message is not recognised as a conflict and becomes the 500 outcome. -/
theorem c9_conflict_iff_exact_message_witness :
    (category.HandlePost
        (fun _ => some ("duplicate key value violates unique constraint"))
        (some { Code := "clothing", Name := "Clothing" })).1 =
      category.PostResult.serverError ("duplicate key value violates unique constraint") :=
  (c9_conflict_iff_exact_message
      (fun _ => some ("duplicate key value violates unique constraint"))
      { Code := "clothing", Name := "Clothing" }
      ("duplicate key value violates unique constraint")
      (by decide) (by decide) rfl).2 (by decide)

/-- C10: assembly is index-preserving — the `Products` array has the same
length as the input and its i-th entry is the DTO of the i-th input
product (`Code`, `Price` rendered as a float, `Category.Name`); no
product is dropped, duplicated or reordered. -/
theorem c10_products_index_preserving (ps : List models.Product) (iv : Bool) :
    ((catalog.prepareResponse ps iv).Products.length = ps.length) ∧
    (∀ i : Nat, (catalog.prepareResponse ps iv).Products[i]? =
      (ps[i]?).map specProductDTO) := by
  rw [prepareResponse_Products]
  constructor
  · simp
  · intro i
    simp [List.getElem?_map]

/-- C10, instantiated on the two-product fixture. -/
theorem c10_products_index_preserving_witness :
    (catalog.prepareResponse [productSentinelVariant, productNoVariants] false).Products[1]? =
      some { Code := "PROD002", Price := Rat.divInt 20075 100, Category := "Shoes" } :=
  ((c10_products_index_preserving [productSentinelVariant, productNoVariants] false).2 1).trans
    (by decide)

end MyTheresa
